import Mathlib

/-!
Verification of the personal scheduling application (`scheduler_app.py`).

The embedding models Python `datetime` values as seven-field records compared
lexicographically (as Python compares them), the `Appointment` value type, and
the `SchedulingApp` store operations as pure functions over an explicit state.
-/

namespace Scheduler

/-- A naive (timezone-free) timestamp: the fields of a Python `datetime`. -/
structure Datetime where
  year : Nat
  month : Nat
  day : Nat
  hour : Nat
  minute : Nat
  second : Nat
  microsecond : Nat
deriving DecidableEq, Repr

/-- The field tuple on which Python compares two `datetime` values. -/
def Datetime.fields (d : Datetime) : List Nat :=
  [d.year, d.month, d.day, d.hour, d.minute, d.second, d.microsecond]

/-- Lexicographic strict order on lists of naturals (Python tuple comparison). -/
def lexLt : List Nat → List Nat → Bool
  | [], [] => false
  | [], _ :: _ => true
  | _ :: _, [] => false
  | x :: xs, y :: ys => decide (x < y) || (decide (x = y) && lexLt xs ys)

/-- Python `a < b` on datetimes. -/
def Datetime.ltb (a b : Datetime) : Bool := lexLt a.fields b.fields

/-- Python `a <= b` on datetimes (the order is total, so `a <= b` iff `not (b < a)`). -/
def Datetime.leb (a b : Datetime) : Bool := ! Datetime.ltb b a

theorem lexLt_irrefl : ∀ l : List Nat, lexLt l l = false
  | [] => rfl
  | x :: xs => by simp [lexLt, lexLt_irrefl xs]

theorem lexLt_asymm : ∀ {l1 l2 : List Nat}, lexLt l1 l2 = true → lexLt l2 l1 = false
  | [], [], h => by simp [lexLt] at h
  | [], _ :: _, _ => rfl
  | _ :: _, [], h => by simp [lexLt] at h
  | x :: xs, y :: ys, h => by
    simp only [lexLt, Bool.or_eq_true, Bool.and_eq_true, decide_eq_true_eq] at h ⊢
    simp only [Bool.or_eq_false_iff, Bool.and_eq_false_iff, decide_eq_false_iff_not]
    rcases h with h | ⟨he, h⟩
    · exact ⟨by omega, Or.inl (by omega)⟩
    · exact ⟨by omega, Or.inr (lexLt_asymm h)⟩

theorem lexLt_trans : ∀ {l1 l2 l3 : List Nat},
    lexLt l1 l2 = true → lexLt l2 l3 = true → lexLt l1 l3 = true
  | [], [], _, h, _ => by simp [lexLt] at h
  | [], _ :: _, [], _, h => by simp [lexLt] at h
  | [], _ :: _, _ :: _, _, _ => rfl
  | _ :: _, [], _, h, _ => by simp [lexLt] at h
  | _ :: _, _ :: _, [], _, h => by simp [lexLt] at h
  | x :: xs, y :: ys, z :: zs, h1, h2 => by
    simp only [lexLt, Bool.or_eq_true, Bool.and_eq_true, decide_eq_true_eq] at h1 h2 ⊢
    rcases h1 with h1 | ⟨he1, h1⟩ <;> rcases h2 with h2 | ⟨he2, h2⟩
    · exact Or.inl (by omega)
    · exact Or.inl (by omega)
    · exact Or.inl (by omega)
    · exact Or.inr ⟨by omega, lexLt_trans h1 h2⟩

theorem lexLt_connex : ∀ {l1 l2 : List Nat}, l1.length = l2.length →
    lexLt l1 l2 = false → lexLt l2 l1 = false → l1 = l2
  | [], [], _, _, _ => rfl
  | [], _ :: _, h, _, _ => by simp at h
  | _ :: _, [], h, _, _ => by simp at h
  | x :: xs, y :: ys, hlen, h1, h2 => by
    simp only [lexLt, Bool.or_eq_false_iff, Bool.and_eq_false_iff,
      decide_eq_false_iff_not] at h1 h2
    have hxy : x = y := by
      rcases h1.2 with h | h <;> rcases h2.2 with h' | h' <;> omega
    subst hxy
    have hxs : xs = ys := by
      apply lexLt_connex (by simpa using hlen)
      · rcases h1.2 with h | h
        · omega
        · exact h
      · rcases h2.2 with h | h
        · omega
        · exact h
    rw [hxs]

theorem Datetime.fields_inj {a b : Datetime} (h : a.fields = b.fields) : a = b := by
  cases a; cases b
  simp only [Datetime.fields, List.cons.injEq, and_true] at h
  simp_all

theorem Datetime.ltb_irrefl (a : Datetime) : Datetime.ltb a a = false :=
  lexLt_irrefl a.fields

theorem Datetime.ltb_asymm {a b : Datetime} (h : Datetime.ltb a b = true) :
    Datetime.ltb b a = false :=
  lexLt_asymm h

theorem Datetime.ltb_trans {a b c : Datetime} (h1 : Datetime.ltb a b = true)
    (h2 : Datetime.ltb b c = true) : Datetime.ltb a c = true :=
  lexLt_trans h1 h2

theorem Datetime.eq_of_not_ltb {a b : Datetime} (h1 : Datetime.ltb a b = false)
    (h2 : Datetime.ltb b a = false) : a = b :=
  Datetime.fields_inj (lexLt_connex rfl h1 h2)

theorem Datetime.leb_total (a b : Datetime) :
    Datetime.leb a b = true ∨ Datetime.leb b a = true := by
  by_cases h : Datetime.ltb b a = true
  · exact Or.inr (by simp [Datetime.leb, Datetime.ltb_asymm h])
  · exact Or.inl (by simp [Datetime.leb]; simpa using h)

theorem Datetime.leb_trans {a b c : Datetime} (h1 : Datetime.leb a b = true)
    (h2 : Datetime.leb b c = true) : Datetime.leb a c = true := by
  simp only [Datetime.leb, Bool.not_eq_true'] at h1 h2 ⊢
  by_contra hca
  have hca : Datetime.ltb c a = true := by simpa using hca
  by_cases hbc : Datetime.ltb b c = true
  · have := Datetime.ltb_trans hbc hca
    simp [this] at h1
  · have : b = c := Datetime.eq_of_not_ltb (by simpa using hbc) h2
    subst this
    simp [hca] at h1

-- ==================== APPOINTMENT ====================

/-- The `Appointment` value type of `scheduler_app.py`. -/
structure Appointment where
  id : String
  title : String
  start_time : Datetime
  end_time : Datetime
  description : String
  location : String
deriving DecidableEq, Repr

/-- `Appointment.overlaps_with`:
`self.start_time < other.end_time and self.end_time > other.start_time`. -/
def Appointment.overlaps_with (self other : Appointment) : Bool :=
  Datetime.ltb self.start_time other.end_time &&
    Datetime.ltb other.start_time self.end_time

-- Sample fixture values used by witnesses and counterexamples.

/-- Build a `Datetime` with zero seconds/microseconds, like `parse_datetime` does. -/
def dtv (y mo d h mi : Nat) : Datetime :=
  ⟨y, mo, d, h, mi, 0, 0⟩

/-- Fixture: appointment 10:00–11:00 on 2025-09-20. -/
def apptA : Appointment :=
  ⟨"1000000000000001", "A", dtv 2025 9 20 10 0, dtv 2025 9 20 11 0, "", ""⟩

/-- Fixture: appointment 11:00–12:00 on 2025-09-20 (touches `apptA`). -/
def apptB : Appointment :=
  ⟨"1000000000000002", "B", dtv 2025 9 20 11 0, dtv 2025 9 20 12 0, "", ""⟩

/-- Fixture: empty-interval appointment at 10:30 on 2025-09-20. -/
def apptEmpty : Appointment :=
  ⟨"1000000000000003", "E", dtv 2025 9 20 10 30, dtv 2025 9 20 10 30, "", ""⟩

/-- C1: `A.overlaps_with(B)` is true iff `A.start_time < B.end_time` and
`A.end_time > B.start_time`; in particular touching intervals
(`A.end_time == B.start_time`) do not overlap. -/
theorem claim_C1_overlaps_iff (a b : Appointment) :
    (a.overlaps_with b = true ↔
      Datetime.ltb a.start_time b.end_time = true ∧
        Datetime.ltb b.start_time a.end_time = true) ∧
    (a.end_time = b.start_time → a.overlaps_with b = false) := by
  constructor
  · simp [Appointment.overlaps_with]
  · intro h
    simp [Appointment.overlaps_with, ← h, Datetime.ltb_irrefl]

/-- Witness for C1 at the spec's example: 10:00–11:00 touching 11:00–12:00. -/
theorem claim_C1_witness :
    apptA.end_time = apptB.start_time ∧ apptA.overlaps_with apptB = false :=
  ⟨rfl, (claim_C1_overlaps_iff apptA apptB).2 rfl⟩

/-- C9 counterexample: an empty-interval appointment at 10:30 overlaps the
appointment 10:00–11:00 that strictly contains its instant, refuting
"A.overlaps_with(B) and B.overlaps_with(A) are both false for every B". -/
theorem claim_C9_counterexample :
    apptEmpty.start_time = apptEmpty.end_time ∧
      apptEmpty.overlaps_with apptA = true ∧
      apptA.overlaps_with apptEmpty = true := by
  refine ⟨rfl, ?_, ?_⟩ <;> decide

/-- C9 amended: for an empty-interval appointment A (`start_time = end_time`),
`A.overlaps_with(A)` is false — reflexivity of overlap holds only for
non-empty intervals — and against an arbitrary B the overlap (in either
direction) holds exactly when B's interval strictly contains A's instant. -/
theorem claim_C9_empty_interval (a b : Appointment)
    (h : a.start_time = a.end_time) :
    a.overlaps_with a = false ∧
      (a.overlaps_with b = true ↔
        Datetime.ltb b.start_time a.start_time = true ∧
          Datetime.ltb a.start_time b.end_time = true) ∧
      b.overlaps_with a = a.overlaps_with b := by
  refine ⟨?_, ?_, ?_⟩
  · simp [Appointment.overlaps_with, ← h, Datetime.ltb_irrefl]
  · simp [Appointment.overlaps_with, ← h, and_comm]
  · simp [Appointment.overlaps_with, ← h, Bool.and_comm]

/-- Witness for C9 amended at the empty appointment fixture. -/
theorem claim_C9_witness :
    apptEmpty.start_time = apptEmpty.end_time ∧
      apptEmpty.overlaps_with apptEmpty = false :=
  ⟨rfl, (claim_C9_empty_interval apptEmpty apptA rfl).1⟩

-- ==================== ISO-8601 SERIALIZATION ====================

/-- The decimal digit character for `n` (digits 0–9). -/
def digitChar (n : Nat) : Char :=
  match n with
  | 0 => '0' | 1 => '1' | 2 => '2' | 3 => '3' | 4 => '4'
  | 5 => '5' | 6 => '6' | 7 => '7' | 8 => '8' | 9 => '9'
  | _ => '*'

/-- The value of a decimal digit character, `none` for non-digits. -/
def digitVal (c : Char) : Option Nat :=
  if c.toNat < 48 || 57 < c.toNat then none else some (c.toNat - 48)

/-- Two-digit zero-padded decimal rendering (`%02d` for values below 100). -/
def format2 (n : Nat) : List Char :=
  [digitChar (n / 10), digitChar (n % 10)]

/-- Four-digit zero-padded decimal rendering (`%04d` for values below 10000). -/
def format4 (n : Nat) : List Char :=
  [digitChar (n / 1000), digitChar (n / 100 % 10), digitChar (n / 10 % 10),
    digitChar (n % 10)]

/-- Six-digit zero-padded decimal rendering (`%06d` for values below 1000000). -/
def format6 (n : Nat) : List Char :=
  [digitChar (n / 100000), digitChar (n / 10000 % 10), digitChar (n / 1000 % 10),
    digitChar (n / 100 % 10), digitChar (n / 10 % 10), digitChar (n % 10)]

/-- Read exactly two digit characters. -/
def parse2 : List Char → Option (Nat × List Char)
  | c1 :: c2 :: rest => do
    let d1 ← digitVal c1
    let d2 ← digitVal c2
    some (10 * d1 + d2, rest)
  | _ => none

/-- Read exactly four digit characters. -/
def parse4 : List Char → Option (Nat × List Char)
  | c1 :: c2 :: c3 :: c4 :: rest => do
    let d1 ← digitVal c1
    let d2 ← digitVal c2
    let d3 ← digitVal c3
    let d4 ← digitVal c4
    some (1000 * d1 + 100 * d2 + 10 * d3 + d4, rest)
  | _ => none

/-- Read exactly six digit characters. -/
def parse6 : List Char → Option (Nat × List Char)
  | c1 :: c2 :: c3 :: c4 :: c5 :: c6 :: rest => do
    let d1 ← digitVal c1
    let d2 ← digitVal c2
    let d3 ← digitVal c3
    let d4 ← digitVal c4
    let d5 ← digitVal c5
    let d6 ← digitVal c6
    some (100000 * d1 + 10000 * d2 + 1000 * d3 + 100 * d4 + 10 * d5 + d6, rest)
  | _ => none

/-- Gregorian leap-year test. -/
def isLeap (y : Nat) : Bool :=
  y % 4 == 0 && (y % 100 != 0 || y % 400 == 0)

/-- Number of days in a month. -/
def daysInMonth (y m : Nat) : Nat :=
  if m = 2 then (if isLeap y then 29 else 28)
  else if m = 4 ∨ m = 6 ∨ m = 9 ∨ m = 11 then 30
  else 31

/-- Field ranges enforced by the Python `datetime` constructor. -/
def Datetime.isValid (d : Datetime) : Bool :=
  decide (1 ≤ d.year) && decide (d.year ≤ 9999) &&
    decide (1 ≤ d.month) && decide (d.month ≤ 12) &&
    decide (1 ≤ d.day) && decide (d.day ≤ daysInMonth d.year d.month) &&
    decide (d.hour ≤ 23) && decide (d.minute ≤ 59) && decide (d.second ≤ 59) &&
    decide (d.microsecond ≤ 999999)

/-- `datetime(...)` construction: validates the fields. -/
def mkDatetime (y mo d h mi s u : Nat) : Option Datetime :=
  let dt : Datetime := ⟨y, mo, d, h, mi, s, u⟩
  if dt.isValid then some dt else none

/-- `datetime.isoformat()`: `YYYY-MM-DDTHH:MM:SS`, with `.ffffff` appended
exactly when the microsecond field is nonzero. -/
def isoChars (d : Datetime) : List Char :=
  format4 d.year ++ '-' :: format2 d.month ++ '-' :: format2 d.day ++
    'T' :: format2 d.hour ++ ':' :: format2 d.minute ++ ':' :: format2 d.second ++
    (if d.microsecond = 0 then [] else '.' :: format6 d.microsecond)

def Datetime.isoformat (d : Datetime) : String :=
  String.mk (isoChars d)

/-- Consume one expected literal character. -/
def expectChar (c : Char) : List Char → Option (List Char)
  | x :: rest => if x = c then some rest else none
  | [] => none

/-- `datetime.fromisoformat` parsing: optional fractional seconds. -/
def parseIsoFrac (y mo d h mi s : Nat) : List Char → Option Datetime
  | [] => mkDatetime y mo d h mi s 0
  | c :: r =>
    if c = '.' then
      match parse6 r with
      | some (u, r2) => if r2 = [] then mkDatetime y mo d h mi s u else none
      | none => none
    else none

/-- `datetime.fromisoformat` parsing: optional `:SS` part. -/
def parseIsoSec (y mo d h mi : Nat) : List Char → Option Datetime
  | [] => mkDatetime y mo d h mi 0 0
  | c :: r =>
    if c = ':' then
      match parse2 r with
      | some (s, r2) => parseIsoFrac y mo d h mi s r2
      | none => none
    else none

/-- `datetime.fromisoformat` parsing: optional `THH:MM` part. -/
def parseIsoTime (y mo d : Nat) : List Char → Option Datetime
  | [] => mkDatetime y mo d 0 0 0 0
  | c :: r =>
    if c = 'T' then
      match parse2 r with
      | some (h, r2) =>
        match expectChar ':' r2 with
        | some r3 =>
          match parse2 r3 with
          | some (mi, r4) => parseIsoSec y mo d h mi r4
          | none => none
        | none => none
      | none => none
    else none

/-- `datetime.fromisoformat` parsing: the leading `YYYY-MM-DD`. -/
def parseIsoChars (cs : List Char) : Option Datetime :=
  match parse4 cs with
  | some (y, r0) =>
    match expectChar '-' r0 with
    | some r1 =>
      match parse2 r1 with
      | some (mo, r2) =>
        match expectChar '-' r2 with
        | some r3 =>
          match parse2 r3 with
          | some (d, r4) => parseIsoTime y mo d r4
          | none => none
        | none => none
      | none => none
    | none => none
  | none => none

/-- Python exception classes relevant to the app's error handling. -/
inductive PyError where
  | keyError
  | valueError
deriving DecidableEq, Repr

/-- `datetime.fromisoformat`: raises `ValueError` on text it cannot parse. -/
def fromisoformat (s : String) : Except PyError Datetime :=
  match parseIsoChars s.data with
  | some d => .ok d
  | none => .error .valueError

theorem digitVal_digitChar {n : Nat} (h : n < 10) :
    digitVal (digitChar n) = some n := by
  interval_cases n <;> rfl

theorem parse2_format2 {n : Nat} (h : n < 100) (r : List Char) :
    parse2 (format2 n ++ r) = some (n, r) := by
  have h1 : n / 10 < 10 := by omega
  have h2 : n % 10 < 10 := by omega
  simp [format2, parse2, digitVal_digitChar h1, digitVal_digitChar h2]
  omega

theorem parse4_format4 {n : Nat} (h : n < 10000) (r : List Char) :
    parse4 (format4 n ++ r) = some (n, r) := by
  have h1 : n / 1000 < 10 := by omega
  have h2 : n / 100 % 10 < 10 := by omega
  have h3 : n / 10 % 10 < 10 := by omega
  have h4 : n % 10 < 10 := by omega
  simp [format4, parse4, digitVal_digitChar h1, digitVal_digitChar h2,
    digitVal_digitChar h3, digitVal_digitChar h4]
  omega

theorem parse6_format6 {n : Nat} (h : n < 1000000) (r : List Char) :
    parse6 (format6 n ++ r) = some (n, r) := by
  have h1 : n / 100000 < 10 := by omega
  have h2 : n / 10000 % 10 < 10 := by omega
  have h3 : n / 1000 % 10 < 10 := by omega
  have h4 : n / 100 % 10 < 10 := by omega
  have h5 : n / 10 % 10 < 10 := by omega
  have h6 : n % 10 < 10 := by omega
  simp [format6, parse6, digitVal_digitChar h1, digitVal_digitChar h2,
    digitVal_digitChar h3, digitVal_digitChar h4, digitVal_digitChar h5,
    digitVal_digitChar h6]
  omega

theorem daysInMonth_le (y m : Nat) : daysInMonth y m ≤ 31 := by
  simp only [daysInMonth]
  split_ifs <;> omega

/-- A valid datetime's ISO text parses back to the same datetime. -/
theorem parseIsoChars_isoChars {d : Datetime} (h : d.isValid = true) :
    parseIsoChars (isoChars d) = some d := by
  have hvalid := h
  obtain ⟨y, mo, dd, hh, mi, s, u⟩ := d
  simp only [Datetime.isValid, Bool.and_eq_true, decide_eq_true_eq] at h
  obtain ⟨⟨⟨⟨⟨⟨⟨⟨⟨hy1, hy2⟩, hm1⟩, hm2⟩, hd1⟩, hd2⟩, hh1⟩, hmi1⟩, hs1⟩, hu1⟩ := h
  have hdim : daysInMonth y mo ≤ 31 := daysInMonth_le y mo
  have e4 := parse4_format4 (show y < 10000 by omega)
  have e2m := parse2_format2 (show mo < 100 by omega)
  have e2d := parse2_format2 (show dd < 100 by omega)
  have e2h := parse2_format2 (show hh < 100 by omega)
  have e2mi := parse2_format2 (show mi < 100 by omega)
  have e2s := parse2_format2 (show s < 100 by omega)
  have e2s0 : parse2 (format2 s) = some (s, []) := by
    simpa using e2s []
  by_cases hu : u = 0
  · subst hu
    simp only [isoChars, if_pos rfl, List.append_nil]
    simp [parseIsoChars, e4, expectChar, e2m, e2d, parseIsoTime, e2mi, e2h,
      parseIsoSec, e2s0, parseIsoFrac, mkDatetime, hvalid]
  · have e6 := parse6_format6 (show u < 1000000 by omega)
    have e60 : parse6 (format6 u) = some (u, []) := by
      simpa using e6 []
    simp only [isoChars, if_neg hu]
    simp [parseIsoChars, e4, expectChar, e2m, e2d, parseIsoTime, e2mi, e2h,
      parseIsoSec, e2s, parseIsoFrac, e60, mkDatetime, hvalid]

-- ==================== DICTIONARY (DE)SERIALIZATION ====================

/-- The JSON record produced by `to_dict` / consumed by `from_dict`: each key
may be absent (`data[k]` on an absent key raises `KeyError`; `data.get`
substitutes a default). -/
structure RawDict where
  id : Option String
  title : Option String
  start_time : Option String
  end_time : Option String
  description : Option String
  location : Option String
deriving DecidableEq, Repr

/-- `Appointment.to_dict`: all six keys present, datetimes as ISO text. -/
def Appointment.to_dict (a : Appointment) : RawDict :=
  ⟨some a.id, some a.title, some a.start_time.isoformat, some a.end_time.isoformat,
    some a.description, some a.location⟩

/-- Python `data[key]` lookup: `KeyError` when the key is absent. -/
def getKey (o : Option String) : Except PyError String :=
  match o with
  | some s => .ok s
  | none => .error .keyError

/-- `Appointment.from_dict`, field accesses in source order: `title`,
`start_time`, `end_time`, `description`/`location` via `.get` with default
`""`, then `id`. -/
def Appointment.from_dict (data : RawDict) : Except PyError Appointment := do
  let title ← getKey data.title
  let start_time ← fromisoformat (← getKey data.start_time)
  let end_time ← fromisoformat (← getKey data.end_time)
  let description := data.description.getD ""
  let location := data.location.getD ""
  let id ← getKey data.id
  return ⟨id, title, start_time, end_time, description, location⟩

/-- C5: serializing an appointment and deserializing the record reproduces an
appointment identical in all six fields, provided its timestamps satisfy the
`datetime` field invariants (which every constructed Python `datetime` does). -/
theorem claim_C5_roundtrip (a : Appointment)
    (h1 : a.start_time.isValid = true) (h2 : a.end_time.isValid = true) :
    Appointment.from_dict (Appointment.to_dict a) = .ok a := by
  simp [Appointment.to_dict, Appointment.from_dict, getKey, fromisoformat,
    Datetime.isoformat, Bind.bind, Except.bind, Pure.pure, Except.pure,
    parseIsoChars_isoChars h1, parseIsoChars_isoChars h2]

/-- Witness for C5 at the fixture appointment. -/
theorem claim_C5_witness :
    apptA.start_time.isValid = true ∧ apptA.end_time.isValid = true ∧
      Appointment.from_dict (Appointment.to_dict apptA) = .ok apptA :=
  ⟨by decide, by decide, claim_C5_roundtrip apptA (by decide) (by decide)⟩

-- ==================== SCHEDULING APP STATE ====================

/-- The backing JSON file as `load_appointments` sees it: absent, text that
fails JSON decoding, or a decoded list of records. -/
inductive FileContent where
  | missing
  | malformed
  | parsed (records : List RawDict)
deriving DecidableEq, Repr

/-- The state of a `SchedulingApp`: the in-memory list plus the backing file. -/
structure AppState where
  appointments : List Appointment
  file : FileContent
deriving DecidableEq, Repr

/-- `save_appointments`: overwrite the backing file with the serialized list. -/
def save_appointments (st : AppState) : AppState :=
  { st with file := .parsed (st.appointments.map Appointment.to_dict) }

/-- `find_conflicts`: the loop appending every stored appointment the
candidate overlaps, in store order. -/
def find_conflicts (appointments : List Appointment)
    (appointment : Appointment) : List Appointment :=
  match appointments with
  | [] => []
  | existing :: rest =>
    if appointment.overlaps_with existing then
      existing :: find_conflicts rest appointment
    else
      find_conflicts rest appointment

/-- `add_appointment`. The fresh id (wall-clock generated in Python) and the
user's interactive answer to the conflict prompt are parameters. -/
def add_appointment (st : AppState) (fresh_id title : String)
    (start_time end_time : Datetime) (description location : String)
    (proceed : Bool) : Bool × AppState :=
  if Datetime.leb end_time start_time then (false, st)
  else
    let new_appointment : Appointment :=
      ⟨fresh_id, title, start_time, end_time, description, location⟩
    let conflicts := find_conflicts st.appointments new_appointment
    if !conflicts.isEmpty && !proceed then (false, st)
    else
      (true, save_appointments
        { st with appointments := st.appointments ++ [new_appointment] })

/-- The removal loop of `remove_appointment`: pop the first entry whose `id`
equals the argument. -/
def removeFirstById (l : List Appointment) (appointment_id : String) :
    Option (List Appointment) :=
  match l with
  | [] => none
  | apt :: rest =>
    if apt.id = appointment_id then some rest
    else (removeFirstById rest appointment_id).map (fun r => apt :: r)

/-- `remove_appointment`: returns whether an entry was found and removed;
saves on success. -/
def remove_appointment (st : AppState) (appointment_id : String) :
    Bool × AppState :=
  match removeFirstById st.appointments appointment_id with
  | none => (false, st)
  | some l => (true, save_appointments { st with appointments := l })

-- ==================== DATE-RANGE QUERIES ====================

/-- Advance a datetime by one calendar day (time of day unchanged). -/
def Datetime.nextDay (d : Datetime) : Datetime :=
  if d.day < daysInMonth d.year d.month then { d with day := d.day + 1 }
  else if d.month < 12 then { d with day := 1, month := d.month + 1 }
  else { d with day := 1, month := 1, year := d.year + 1 }

/-- `d + timedelta(days = n)` for a nonnegative number of days. -/
def Datetime.addDays (d : Datetime) : Nat → Datetime
  | 0 => d
  | n + 1 => (Datetime.addDays d n).nextDay

/-- `date.replace(hour=0, minute=0, second=0, microsecond=0)`. -/
def start_of_day (date : Datetime) : Datetime :=
  { date with hour := 0, minute := 0, second := 0, microsecond := 0 }

/-- `get_appointments_for_date`: appointments whose `start_time` satisfies
`start_of_day <= start_time < end_of_day`. -/
def get_appointments_for_date (appointments : List Appointment)
    (date : Datetime) : List Appointment :=
  let sod := start_of_day date
  let end_of_day := sod.addDays 1
  appointments.filter
    (fun apt => Datetime.leb sod apt.start_time &&
      Datetime.ltb apt.start_time end_of_day)

/-- The key comparison of `sorted(upcoming, key=lambda x: x.start_time)`. -/
def apptLe (a b : Appointment) : Prop :=
  Datetime.leb a.start_time b.start_time = true

instance : DecidableRel apptLe := fun _ _ =>
  inferInstanceAs (Decidable (_ = true))

instance : IsTotal Appointment apptLe :=
  ⟨fun a b => Datetime.leb_total a.start_time b.start_time⟩

instance : IsTrans Appointment apptLe :=
  ⟨fun _ _ _ h1 h2 => Datetime.leb_trans h1 h2⟩

/-- `get_upcoming_appointments` with the wall-clock `now` as a parameter:
filter `now <= start_time <= now + timedelta(days=days)`, then stable-sort
ascending by `start_time` (Python `sorted` is a stable sort, and so is
insertion sort with a non-strict relation). -/
def get_upcoming_appointments (appointments : List Appointment)
    (now : Datetime) (days : Nat) : List Appointment :=
  let future_date := now.addDays days
  let upcoming := appointments.filter
    (fun apt => Datetime.leb now apt.start_time &&
      Datetime.leb apt.start_time future_date)
  List.insertionSort apptLe upcoming

-- ==================== LOADING ====================

/-- The comprehension `[Appointment.from_dict(apt) for apt in data]`: stops at
the first raised exception. -/
def fromDicts (records : List RawDict) : Except PyError (List Appointment) :=
  match records with
  | [] => .ok []
  | r :: rest => do
    let a ← Appointment.from_dict r
    let others ← fromDicts rest
    return a :: others

/-- `load_appointments` as a function of the previous in-memory list and the
backing file. `.ok (appointments, logged)` models a normal return (`logged`
records whether the handler printed an error and reset the list); `.error e`
models an exception escaping: only `json.JSONDecodeError` and `KeyError` are
caught, so the `ValueError` raised by `datetime.fromisoformat` on malformed
timestamp text propagates to the caller. -/
def load_appointments (prev : List Appointment) (file : FileContent) :
    Except PyError (List Appointment × Bool) :=
  match file with
  | .missing => .ok (prev, false)
  | .malformed => .ok ([], true)
  | .parsed records =>
    match fromDicts records with
    | .ok appts => .ok (appts, false)
    | .error .keyError => .ok ([], true)
    | .error .valueError => .error .valueError

-- ==================== parse_datetime ====================

/-- strptime token `%m`: the regex alternation `1[0-2]|0[1-9]|[1-9]`. -/
def parseMonthTok : List Char → Option (Nat × List Char)
  | '1' :: c :: rest =>
    if c = '0' then some (10, rest)
    else if c = '1' then some (11, rest)
    else if c = '2' then some (12, rest)
    else some (1, c :: rest)
  | '0' :: c :: rest =>
    match digitVal c with
    | some d => if 1 ≤ d then some (d, rest) else none
    | none => none
  | c :: rest =>
    match digitVal c with
    | some d => if 1 ≤ d then some (d, rest) else none
    | none => none
  | [] => none

/-- strptime token `%d`: the regex alternation
`3[01]|[12]\d|0[1-9]|[1-9]| [1-9]` (including the space-padded final
alternative). -/
def parseDayTok : List Char → Option (Nat × List Char)
  | '3' :: c :: rest =>
    if c = '0' then some (30, rest)
    else if c = '1' then some (31, rest)
    else some (3, c :: rest)
  | '1' :: c :: rest =>
    match digitVal c with
    | some d => some (10 + d, rest)
    | none => some (1, c :: rest)
  | '2' :: c :: rest =>
    match digitVal c with
    | some d => some (20 + d, rest)
    | none => some (2, c :: rest)
  | '0' :: c :: rest =>
    match digitVal c with
    | some d => if 1 ≤ d then some (d, rest) else none
    | none => none
  | ' ' :: c :: rest =>
    match digitVal c with
    | some d => if 1 ≤ d then some (d, rest) else none
    | none => none
  | c :: rest =>
    match digitVal c with
    | some d => if 1 ≤ d then some (d, rest) else none
    | none => none
  | [] => none

/-- strptime token `%Y`: the regex `\d\d\d\d`, exactly four digits. -/
def parseYearTok (cs : List Char) : Option (Nat × List Char) :=
  parse4 cs

/-- strptime token `%H`: the regex alternation `2[0-3]|[0-1]\d|\d`. -/
def parseHourTok : List Char → Option (Nat × List Char)
  | '2' :: c :: rest =>
    if c = '0' then some (20, rest)
    else if c = '1' then some (21, rest)
    else if c = '2' then some (22, rest)
    else if c = '3' then some (23, rest)
    else some (2, c :: rest)
  | '0' :: c :: rest =>
    match digitVal c with
    | some d => some (d, rest)
    | none => some (0, c :: rest)
  | '1' :: c :: rest =>
    match digitVal c with
    | some d => some (10 + d, rest)
    | none => some (1, c :: rest)
  | c :: rest =>
    match digitVal c with
    | some d => some (d, rest)
    | none => none
  | [] => none

/-- strptime token `%M`: the regex alternation `[0-5]\d|\d`. -/
def parseMinuteTok : List Char → Option (Nat × List Char)
  | c1 :: c2 :: rest =>
    match digitVal c1, digitVal c2 with
    | some d1, some d2 =>
      if d1 ≤ 5 then some (10 * d1 + d2, rest) else some (d1, c2 :: rest)
    | some d1, none => some (d1, c2 :: rest)
    | none, _ => none
  | [c1] =>
    match digitVal c1 with
    | some d => some (d, [])
    | none => none
  | [] => none

/-- `datetime` date construction from strptime fields: `MINYEAR <= year` and
the day must exist in the month (the token parsers already bound
month ≤ 12, day ≤ 31, year ≤ 9999). -/
def mkDateYMD (y mo d : Nat) : Option (Nat × Nat × Nat) :=
  if 1 ≤ y ∧ d ≤ daysInMonth y mo then some (y, mo, d) else none

/-- `datetime.strptime(date_str, "%Y-%m-%d")`, as year/month/day fields. -/
def strptimeYMD (s : String) : Option (Nat × Nat × Nat) :=
  match parseYearTok s.data with
  | none => none
  | some (y, r1) =>
    match expectChar '-' r1 with
    | none => none
    | some r2 =>
      match parseMonthTok r2 with
      | none => none
      | some (mo, r3) =>
        match expectChar '-' r3 with
        | none => none
        | some r4 =>
          match parseDayTok r4 with
          | none => none
          | some (d, r5) => if r5 = [] then mkDateYMD y mo d else none

/-- `datetime.strptime(date_str, "%m/%d/%Y")`, as year/month/day fields. -/
def strptimeMDY (s : String) : Option (Nat × Nat × Nat) :=
  match parseMonthTok s.data with
  | none => none
  | some (mo, r1) =>
    match expectChar '/' r1 with
    | none => none
    | some r2 =>
      match parseDayTok r2 with
      | none => none
      | some (d, r3) =>
        match expectChar '/' r3 with
        | none => none
        | some r4 =>
          match parseYearTok r4 with
          | none => none
          | some (y, r5) => if r5 = [] then mkDateYMD y mo d else none

/-- `datetime.strptime(date_str, "%d/%m/%Y")`, as year/month/day fields. -/
def strptimeDMY (s : String) : Option (Nat × Nat × Nat) :=
  match parseDayTok s.data with
  | none => none
  | some (d, r1) =>
    match expectChar '/' r1 with
    | none => none
    | some r2 =>
      match parseMonthTok r2 with
      | none => none
      | some (mo, r3) =>
        match expectChar '/' r3 with
        | none => none
        | some r4 =>
          match parseYearTok r4 with
          | none => none
          | some (y, r5) => if r5 = [] then mkDateYMD y mo d else none

/-- The format loop in `parse_datetime`: try `%Y-%m-%d`, `%m/%d/%Y`,
`%d/%m/%Y` in that order and take the first that matches. -/
def parse_date_str (date_str : String) : Option (Nat × Nat × Nat) :=
  match strptimeYMD date_str with
  | some r => some r
  | none =>
    match strptimeMDY date_str with
    | some r => some r
    | none => strptimeDMY date_str

/-- `datetime.strptime(time_str, "%H:%M").time()`. -/
def strptimeHM (s : String) : Option (Nat × Nat) :=
  match parseHourTok s.data with
  | none => none
  | some (h, r1) =>
    match expectChar ':' r1 with
    | none => none
    | some r2 =>
      match parseMinuteTok r2 with
      | none => none
      | some (mi, r3) => if r3 = [] then some (h, mi) else none

/-- `parse_datetime(date_str, time_str)`; `none` models the raised
`ValueError`. `datetime.combine` of a date and an `%H:%M` time yields zero
seconds and microseconds. -/
def parse_datetime (date_str time_str : String) : Option Datetime :=
  match parse_date_str date_str with
  | none => none
  | some (y, mo, d) =>
    match strptimeHM time_str with
    | none => none
    | some (h, mi) => some ⟨y, mo, d, h, mi, 0, 0⟩

-- ==================== CLAIMS ABOUT THE STORE ====================

/-- C8: `find_conflicts` returns exactly the stored appointments the candidate
overlaps, in store order; being a pure function of the list, it leaves the
store untouched. -/
theorem claim_C8_find_conflicts (appointments : List Appointment)
    (candidate : Appointment) :
    find_conflicts appointments candidate =
      appointments.filter (fun existing => candidate.overlaps_with existing) := by
  induction appointments with
  | nil => rfl
  | cons e rest ih =>
    by_cases h : candidate.overlaps_with e = true
    · simp [find_conflicts, List.filter_cons, h, ih]
    · simp [find_conflicts, List.filter_cons, h, ih]

/-- C3: `get_appointments_for_date D` returns exactly the stored appointments
whose `start_time` lies in `[D@00:00, D@00:00 + 24h)`; the `end_time` plays no
role, so a midnight-spanning appointment is listed only under its start day. -/
theorem claim_C3_appointments_for_date (appointments : List Appointment)
    (date : Datetime) (a : Appointment) :
    a ∈ get_appointments_for_date appointments date ↔
      a ∈ appointments ∧
        Datetime.leb (start_of_day date) a.start_time = true ∧
        Datetime.ltb a.start_time ((start_of_day date).addDays 1) = true := by
  simp [get_appointments_for_date, List.mem_filter, Bool.and_eq_true]

/-- C4: when `start_time >= end_time`, `add_appointment` returns `False` and
leaves the state — appointment list (size, contents, order) and backing
file — unchanged. -/
theorem claim_C4_add_rejects (st : AppState) (fresh_id title : String)
    (start_time end_time : Datetime) (description location : String)
    (proceed : Bool) (h : Datetime.leb end_time start_time = true) :
    add_appointment st fresh_id title start_time end_time description location
      proceed = (false, st) := by
  simp [add_appointment, h]

/-- Witness for C4: adding with `start_time = end_time` is rejected without
mutation. -/
theorem claim_C4_witness :
    Datetime.leb (dtv 2025 9 20 10 0) (dtv 2025 9 20 10 0) = true ∧
      add_appointment ⟨[apptA], .missing⟩ "id9" "T" (dtv 2025 9 20 10 0)
        (dtv 2025 9 20 10 0) "" "" true = (false, ⟨[apptA], .missing⟩) :=
  ⟨by decide, claim_C4_add_rejects _ _ _ _ _ _ _ _ (by decide)⟩

theorem removeFirstById_eq_none {l : List Appointment} {i : String}
    (h : ∀ a ∈ l, a.id ≠ i) : removeFirstById l i = none := by
  induction l with
  | nil => rfl
  | cons a rest ih =>
    rw [removeFirstById]
    rw [if_neg (h a (List.mem_cons_self a rest))]
    rw [ih (fun b hb => h b (List.mem_cons_of_mem a hb))]
    rfl

theorem removeFirstById_found {pre : List Appointment} {a : Appointment}
    {post : List Appointment} {i : String} (ha : a.id = i)
    (hpre : ∀ b ∈ pre, b.id ≠ i) :
    removeFirstById (pre ++ a :: post) i = some (pre ++ post) := by
  induction pre with
  | nil => simp [removeFirstById, ha]
  | cons b rest ih =>
    rw [List.cons_append, removeFirstById]
    rw [if_neg (hpre b (List.mem_cons_self b rest))]
    rw [ih (fun c hc => hpre c (List.mem_cons_of_mem b hc))]
    simp

/-- C6: removing an unknown id returns `False` and leaves the state unchanged;
removing the id of a stored appointment (the first such entry — ids are
unique in the store) returns `True`, deletes exactly that entry keeping all
others in their order, and writes the smaller collection to the backing
file. -/
theorem claim_C6_remove (st : AppState) (appointment_id : String) :
    ((∀ a ∈ st.appointments, a.id ≠ appointment_id) →
        remove_appointment st appointment_id = (false, st)) ∧
      (∀ pre a post, st.appointments = pre ++ a :: post →
        a.id = appointment_id → (∀ b ∈ pre, b.id ≠ appointment_id) →
        remove_appointment st appointment_id =
          (true, ⟨pre ++ post,
            .parsed ((pre ++ post).map Appointment.to_dict)⟩)) := by
  constructor
  · intro h
    simp [remove_appointment, removeFirstById_eq_none h]
  · intro pre a post hsplit ha hpre
    rw [remove_appointment, hsplit, removeFirstById_found ha hpre]
    simp [save_appointments]

/-- Witness for C6: removing `apptB` by its id from `[apptA, apptB]` keeps
`apptA` and persists the one-element collection. -/
theorem claim_C6_witness :
    remove_appointment ⟨[apptA, apptB], .missing⟩ apptB.id =
      (true, ⟨[apptA], .parsed ([apptA].map Appointment.to_dict)⟩) := by
  have h := (claim_C6_remove ⟨[apptA, apptB], .missing⟩ apptB.id).2
    [apptA] apptB [] rfl rfl (by decide)
  simpa using h

/-- C2 amended: with the wall-clock `now` fixed as a parameter,
`get_upcoming_appointments(days)` returns exactly (as a permutation) the
stored appointments whose `start_time` lies in the CLOSED interval
`[now, now + days]` — the code's comparison is `now <= start <= future`, so
the upper endpoint is included — sorted ascending by `start_time`; an
appointment starting before `now` is excluded. -/
theorem claim_C2_upcoming (appointments : List Appointment) (now : Datetime)
    (days : Nat) :
    (get_upcoming_appointments appointments now days).Perm
        (appointments.filter
          (fun apt => Datetime.leb now apt.start_time &&
            Datetime.leb apt.start_time (now.addDays days))) ∧
      (get_upcoming_appointments appointments now days).Sorted apptLe :=
  ⟨List.perm_insertionSort apptLe _, List.sorted_insertionSort apptLe _⟩

/-- Fixture `now` for the C2 counterexample. -/
def nowFix : Datetime := dtv 2025 9 20 9 0

/-- Fixture: appointment starting exactly at `nowFix + timedelta(days=1)`. -/
def apptAtBoundary : Appointment :=
  ⟨"1000000000000004", "boundary", dtv 2025 9 21 9 0, dtv 2025 9 21 10 0, "", ""⟩

/-- C2 counterexample: with `days = 1`, an appointment starting exactly at
`now + 1 day` — outside the claimed half-open interval `[now, now + days)` —
is nevertheless returned by `get_upcoming_appointments`. -/
theorem claim_C2_counterexample :
    get_upcoming_appointments [apptAtBoundary] nowFix 1 = [apptAtBoundary] ∧
      Datetime.ltb apptAtBoundary.start_time (nowFix.addDays 1) = false := by
  constructor <;> decide

-- ==================== CLAIMS ABOUT LOADING ====================

/-- Fixture: the well-formed serialized record of `apptA`. -/
def goodDict : RawDict := Appointment.to_dict apptA

/-- Fixture: a record whose `start_time` text is not ISO-8601. -/
def badTimestampDict : RawDict :=
  { goodDict with start_time := some "garbage" }

/-- Fixture: a record missing the required `title` key. -/
def missingTitleDict : RawDict :=
  { goodDict with title := none }

/-- C7 counterexample: a JSON-decodable file whose record holds malformed
timestamp text does NOT reset the collection to empty: the `ValueError`
raised by `datetime.fromisoformat` is not in the
`except (json.JSONDecodeError, KeyError)` clause and escapes to the caller. -/
theorem claim_C7_counterexample :
    load_appointments [] (.parsed [badTimestampDict]) =
      .error .valueError := rfl

/-- C7 amended: on a file whose text fails JSON decoding, or whose decoded
records lack a required key, `load_appointments` logs the error and resets
the in-memory collection to empty without raising; malformed timestamp text,
however, raises an uncaught `ValueError`. -/
theorem claim_C7_load_resets (prev : List Appointment)
    (records : List RawDict) (h : fromDicts records = .error .keyError) :
    load_appointments prev .malformed = .ok ([], true) ∧
      load_appointments prev (.parsed records) = .ok ([], true) := by
  constructor
  · rfl
  · simp [load_appointments, h]

/-- Witness for C7 amended: a record with no `title` key resets a previously
non-empty collection to empty. -/
theorem claim_C7_witness :
    load_appointments [apptA] (.parsed [missingTitleDict]) = .ok ([], true) :=
  (claim_C7_load_resets [apptA] [missingTitleDict] rfl).2

-- ==================== CLAIM ABOUT parse_datetime ====================

/-- C10: the format loop resolves ambiguity deterministically by order:
a string matching `%Y-%m-%d` is taken with that format; otherwise a string
matching `%m/%d/%Y` is read month-first even when `%d/%m/%Y` also matches;
`%d/%m/%Y` is only ever the last resort. Concretely `"01/02/2025"` parses as
January 2, 2025, although day-first would read it as February 1. -/
theorem claim_C10_format_order :
    (∀ s r, strptimeYMD s = some r → parse_date_str s = some r) ∧
      (∀ s r, strptimeYMD s = none → strptimeMDY s = some r →
        parse_date_str s = some r) ∧
      (∀ s, strptimeYMD s = none → strptimeMDY s = none →
        parse_date_str s = strptimeDMY s) ∧
      parse_date_str "01/02/2025" = some (2025, 1, 2) ∧
      strptimeDMY "01/02/2025" = some (2025, 2, 1) := by
  refine ⟨?_, ?_, ?_, ?_, ?_⟩
  · intro s r h
    simp [parse_date_str, h]
  · intro s r h1 h2
    simp [parse_date_str, h1, h2]
  · intro s h1 h2
    simp [parse_date_str, h1, h2]
  · rfl
  · rfl

/-- Witness for C10 at the ambiguous date `"01/02/2025"`: the month-first
format wins. -/
theorem claim_C10_witness :
    parse_date_str "01/02/2025" = some (2025, 1, 2) :=
  claim_C10_format_order.2.1 "01/02/2025" (2025, 1, 2) rfl rfl

end Scheduler
